import Mathlib

/-!
Shallow embedding of the `middlelogger` Go package (stdlib_logger.go):
the response interceptor `loggedRequest`, the slow-request poller
`logHandler.slowLog`, and the request-completion dispatcher
`logHandler.ServeHTTP`.

Modelling conventions:
* `time.Duration` is `Int` (nanoseconds); byte counters are `Nat`
  (the Go `int64` counter only ever has non-negative values added to it,
  and the claims under verification do not involve `int64` wraparound).
* The underlying `http.ResponseWriter` supplied by the hosting runtime is
  external input: the pair `(written, err)` its `Write` returns for a call
  is an environment parameter (`WriteResult`).  Per the `io.Writer`
  contract the underlying stream may report `written < len(data)`
  together with a non-nil error.
* A handler execution is a trace: a list of interceptor operations
  (`HandlerOp`) followed by an outcome — normal return (`none`) or a
  panic carrying a value (`some v`).
* The poller's timing nondeterminism is a schedule (`List PollEvent`):
  for each loop iteration, which `select` branch fired, and for a timer
  firing, the interceptor snapshot observed at that moment.
* `LogData` keeps the fields the claims are about (`Status`,
  `BytesWritten`); the `R`, `W`, `Start` and `TotalTime` fields are
  opaque references and wall-clock times, irrelevant to every claim.
-/

namespace Middlelogger

/-- The pair returned by the underlying stream's `Write` — Go's
`(int, error)`, with the error modelled as `Option String`. -/
structure WriteResult where
  written : Nat
  err : Option String
deriving DecidableEq, Repr

/-- State of the `loggedRequest` interceptor (stdlib_logger.go, lines
103-111).  The zero value `&loggedRequest{w: w}` has `status = 0`,
`wroteHeader = false`, `bytesWritten = 0`.  The mutex only serialises
access and has no sequential content. -/
structure LoggedRequest where
  status : Int
  wroteHeader : Bool
  bytesWritten : Nat
deriving DecidableEq, Repr

/-- Interceptor state at request start: `&loggedRequest{w: w}`. -/
def initLoggedRequest : LoggedRequest :=
  { status := 0, wroteHeader := false, bytesWritten := 0 }

/-- `loggedRequest.WriteHeader` (lines 113-124): if `wroteHeader` is
already set, return with no change and no forwarding; otherwise set
`wroteHeader`, record `status := code`, and forward `code` to the
underlying stream.  The returned `Bool` records whether
`lr.w.WriteHeader(code)` was invoked. -/
def LoggedRequest.WriteHeader (lr : LoggedRequest) (code : Int) :
    LoggedRequest × Bool :=
  if lr.wroteHeader then (lr, false)
  else ({ lr with wroteHeader := true, status := code }, true)

/-- `loggedRequest.Write` (lines 130-137): forward `data` to the
underlying stream, obtaining `uRes = (written, err)`; add `written` to
`bytesWritten`; return the pair `(written, err)` unchanged to the
caller.  `dataLen` is `len(data)`; the content of `data` never touches
the interceptor state. -/
def LoggedRequest.Write (lr : LoggedRequest) (dataLen : Nat)
    (uRes : WriteResult) : LoggedRequest × WriteResult :=
  ({ lr with bytesWritten := lr.bytesWritten + uRes.written }, uRes)

/-- `loggedRequest.currentData` (lines 139-143): atomically snapshot
`(status, bytesWritten)`; the state is not mutated. -/
def LoggedRequest.currentData (lr : LoggedRequest) : Int × Nat :=
  (lr.status, lr.bytesWritten)

/-- One interceptor operation issued by the wrapped handler.  A `write`
carries `len(data)` and the result the underlying stream returned for
this particular call. -/
inductive HandlerOp where
  | write (dataLen : Nat) (uRes : WriteResult)
  | writeHeader (code : Int)
deriving DecidableEq, Repr

/-- Run a sequence of handler operations against the interceptor.
Returns the final interceptor state and the list of status codes that
were forwarded to the underlying stream's `WriteHeader`, in order. -/
def runOps : LoggedRequest → List HandlerOp → LoggedRequest × List Int
  | lr, [] => (lr, [])
  | lr, HandlerOp.write n u :: rest =>
      runOps (LoggedRequest.Write lr n u).1 rest
  | lr, HandlerOp.writeHeader c :: rest =>
      let hd := LoggedRequest.WriteHeader lr c
      let tl := runOps hd.1 rest
      (tl.1, if hd.2 then c :: tl.2 else tl.2)

/-- Sum over a trace of the byte counts the underlying stream reported
(`written` of each `write` operation). -/
def sumWritten : List HandlerOp → Nat
  | [] => 0
  | HandlerOp.write _ u :: rest => u.written + sumWritten rest
  | HandlerOp.writeHeader _ :: rest => sumWritten rest

/-- Sum over a trace of `len(data)` of each `write` operation. -/
def sumDataLen : List HandlerOp → Nat
  | [] => 0
  | HandlerOp.write n _ :: rest => n + sumDataLen rest
  | HandlerOp.writeHeader _ :: rest => sumDataLen rest

/-- Whether every `write` in the trace was fully successful at the
underlying stream, i.e. the underlying `Write` reported exactly
`len(data)` bytes written. -/
def allFullWrites : List HandlerOp → Bool
  | [] => true
  | HandlerOp.write n u :: rest => (u.written == n) && allFullWrites rest
  | HandlerOp.writeHeader _ :: rest => allFullWrites rest

/-- Modelled from the spec (and code lines 108, 113-124): the recorded
status is the argument of the first `WriteHeader` call in the trace,
absent when no call occurs.  Spec-side definition used to compare
against `runOps`. -/
def specFirstHeader : List HandlerOp → Option Int
  | [] => none
  | HandlerOp.write _ _ :: rest => specFirstHeader rest
  | HandlerOp.writeHeader c :: _ => some c

/-- The fields of `LogData` the claims are about.  `R`, `W`, `Start` and
`TotalTime` are opaque request/stream references and wall-clock values
not modelled. -/
structure LogData where
  Status : Int
  BytesWritten : Nat
deriving DecidableEq, Repr

/-- One observer callback invocation, with the `LogData` passed to it.
`α` is the type of panic values (Go's `interface{}`). -/
inductive Emission (α : Type) where
  | logRequest (ld : LogData)
  | logPanic (ld : LogData) (v : α)
  | logSlow (ld : LogData) (i : Nat)
deriving DecidableEq, Repr

def isLogRequest : Emission α → Bool
  | Emission.logRequest _ => true
  | _ => false

def isLogPanic : Emission α → Bool
  | Emission.logPanic _ _ => true
  | _ => false

def isLogSlow : Emission α → Bool
  | Emission.logSlow _ _ => true
  | _ => false

/-- A terminal emission: `LogRequest` or `LogPanic` (not a slow log). -/
def isTerminal : Emission α → Bool
  | Emission.logRequest _ => true
  | Emission.logPanic _ _ => true
  | Emission.logSlow _ _ => false

/-- The `LogData` argument of an emission. -/
def emissionData : Emission α → LogData
  | Emission.logRequest ld => ld
  | Emission.logPanic ld _ => ld
  | Emission.logSlow ld _ => ld

/-- The observer as resolved by `LoggerMiddleware` (lines 237-247):
whether the type assertions for `PanicLogger` and `SlowRequestLogger`
succeeded, and — when the latter did — what `Cutoff(r)` and
`MultipleLogs(r)` return for the request under consideration. -/
structure Observer where
  hasPanicLogger : Bool
  hasSlowLogger : Bool
  cutoff : Int
  multipleLogs : Bool
deriving DecidableEq, Repr

/-- Result of one `logHandler.ServeHTTP` invocation: whether the slow
poller goroutine was started, the terminal emissions made by the
deferred completion block, and the panic (if any) that continues to
propagate to the dispatcher's caller after the deferred block ran. -/
structure ServeResult (α : Type) where
  pollerStarted : Bool
  emissions : List (Emission α)
  propagated : Option α
deriving DecidableEq, Repr

/-- `logHandler.ServeHTTP` (lines 179-227), sequential content.
The poller is started iff a slow logger is present and `cutoff > 0`
(lines 186-192).  `outcome = some v` means `next.ServeHTTP` panicked
with value `v`; `none` means it returned normally.  The deferred block
(lines 196-224) always runs: it snapshots the interceptor, builds the
`LogData`, and then — only if a panic logger is present — calls
`recover()`; a recovered panic is logged via `LogPanic` and suppressed.
Otherwise (no panic logger, or no pending panic) `LogRequest` is called;
with no panic logger a pending panic keeps propagating after the
deferred block finishes. -/
def ServeHTTP (obs : Observer) (ops : List HandlerOp)
    (outcome : Option α) : ServeResult α :=
  let pollerStarted := obs.hasSlowLogger && decide (obs.cutoff > 0)
  let lr := (runOps initLoggedRequest ops).1
  let ld : LogData :=
    { Status := (LoggedRequest.currentData lr).1
      BytesWritten := (LoggedRequest.currentData lr).2 }
  if obs.hasPanicLogger then
    match outcome with
    | some v =>
        { pollerStarted := pollerStarted
          emissions := [Emission.logPanic ld v]
          propagated := none }
    | none =>
        { pollerStarted := pollerStarted
          emissions := [Emission.logRequest ld]
          propagated := none }
  else
    { pollerStarted := pollerStarted
      emissions := [Emission.logRequest ld]
      propagated := outcome }

/-- One observed iteration of the poller's `select` (lines 158-175):
either `doneChan` fired, or the `time.After(cutoff)` timer fired with
the interceptor snapshot `(status, bytesWritten)` read at that moment. -/
inductive PollEvent where
  | done
  | timer (snap : Int × Nat)
deriving DecidableEq, Repr

def isTimer : PollEvent → Bool
  | PollEvent.done => false
  | PollEvent.timer _ => true

/-- `logHandler.slowLog` (lines 154-177): loop with index `i` from 0
while `multiple || i == 0`; each iteration races the cancellation
channel against the timer.  Cancellation terminates the loop with no
emission; a timer firing emits `(LogData-from-snapshot, i)` and the loop
continues.  The schedule lists the observed `select` results; an
exhausted schedule means the poller is still blocked (or the loop
condition already failed), with no further emissions observed. -/
def slowLog (multiple : Bool) : Nat → List PollEvent → List (LogData × Nat)
  | _, [] => []
  | i, ev :: rest =>
      if multiple || i == 0 then
        match ev with
        | PollEvent.done => []
        | PollEvent.timer snap =>
            ({ Status := snap.1, BytesWritten := snap.2 }, i)
              :: slowLog multiple (i + 1) rest
      else []

/-- All emissions observed for one request: the slow emissions of the
poller (when it was started) together with the terminal emissions of the
deferred completion block.  The poller runs concurrently with the
handler; the claims under verification only count emissions and inspect
terminal data, so the relative interleaving is irrelevant here. -/
def requestTrace (obs : Observer) (ops : List HandlerOp)
    (outcome : Option α) (sched : List PollEvent) : List (Emission α) :=
  let r := ServeHTTP obs ops outcome
  let slows :=
    if r.pollerStarted then
      (slowLog obs.multipleLogs 0 sched).map
        (fun p => Emission.logSlow p.1 p.2)
    else []
  slows ++ r.emissions

/-! ## Helper lemmas -/

/-- Running a trace adds exactly the underlying-reported write counts to
the byte counter. -/
theorem runOps_bytesWritten (ops : List HandlerOp) :
    ∀ lr : LoggedRequest,
      (runOps lr ops).1.bytesWritten = lr.bytesWritten + sumWritten ops := by
  induction ops with
  | nil => intro lr; simp [runOps, sumWritten]
  | cons op rest ih =>
    intro lr
    cases op with
    | write n u =>
      simp [runOps, sumWritten, LoggedRequest.Write, ih]
      omega
    | writeHeader c =>
      simp only [runOps, sumWritten]
      by_cases h : lr.wroteHeader <;>
        simp [LoggedRequest.WriteHeader, h, ih]

/-- Once the header was written, running more operations never changes
the recorded status and never forwards another header. -/
theorem runOps_header_already_written (ops : List HandlerOp) :
    ∀ lr : LoggedRequest, lr.wroteHeader = true →
      (runOps lr ops).1.status = lr.status ∧ (runOps lr ops).2 = [] := by
  induction ops with
  | nil => intro lr _; simp [runOps]
  | cons op rest ih =>
    intro lr h
    cases op with
    | write n u =>
      simpa [runOps, LoggedRequest.Write] using
        ih (LoggedRequest.Write lr n u).1 (by simp [LoggedRequest.Write, h])
    | writeHeader c =>
      simpa [runOps, LoggedRequest.WriteHeader, h] using ih lr h

/-- From a fresh-header state, the final recorded status is the first
header code of the trace (defaulting to the current status), and the
codes forwarded to the underlying stream are exactly that first code. -/
theorem runOps_header_fresh (ops : List HandlerOp) :
    ∀ lr : LoggedRequest, lr.wroteHeader = false →
      (runOps lr ops).1.status = (specFirstHeader ops).getD lr.status ∧
      (runOps lr ops).2 = (specFirstHeader ops).toList := by
  induction ops with
  | nil => intro lr _; simp [runOps, specFirstHeader]
  | cons op rest ih =>
    intro lr h
    cases op with
    | write n u =>
      simpa [runOps, specFirstHeader, LoggedRequest.Write] using
        ih (LoggedRequest.Write lr n u).1 (by simp [LoggedRequest.Write, h])
    | writeHeader c =>
      have hw := runOps_header_already_written rest
        { lr with wroteHeader := true, status := c } rfl
      simp [runOps, LoggedRequest.WriteHeader, h, specFirstHeader, hw.1, hw.2]

/-- If every write in the trace fully succeeded at the underlying
stream, the underlying-reported total equals the total of `len(data)`. -/
theorem sumWritten_eq_sumDataLen (ops : List HandlerOp)
    (h : allFullWrites ops = true) : sumWritten ops = sumDataLen ops := by
  induction ops with
  | nil => rfl
  | cons op rest ih =>
    cases op with
    | write n u =>
      simp only [allFullWrites, Bool.and_eq_true, beq_iff_eq] at h
      simp [sumWritten, sumDataLen, h.1, ih h.2]
    | writeHeader c =>
      simp only [allFullWrites] at h
      simp [sumWritten, sumDataLen, ih h]

/-- Slow emissions satisfy no predicate that is false on `logSlow`. -/
theorem countP_logSlow_map (l : List (LogData × Nat)) (p : Emission α → Bool)
    (hp : ∀ ld i, p (Emission.logSlow ld i) = false) :
    ((l.map fun q => Emission.logSlow q.1 q.2).countP p) = 0 := by
  induction l with
  | nil => rfl
  | cons a t ih => simp [List.countP_cons, ih, hp]

/-- The slow block of a request trace contributes nothing to a count of
emissions whose predicate is false on `logSlow`, whether or not the
poller was started. -/
theorem countP_slowBlock (b : Bool) (l : List (LogData × Nat))
    (p : Emission α → Bool)
    (hp : ∀ ld i, p (Emission.logSlow ld i) = false) :
    ((if b then l.map fun q => Emission.logSlow q.1 q.2 else []).countP
      p) = 0 := by
  cases b
  · simp
  · simpa using countP_logSlow_map l p hp

/-- The poller-started flag of a dispatch is exactly
`hasSlowLogger && cutoff > 0`. -/
theorem ServeHTTP_pollerStarted (obs : Observer) (ops : List HandlerOp)
    (outcome : Option α) :
    (ServeHTTP obs ops outcome).pollerStarted =
      (obs.hasSlowLogger && decide (obs.cutoff > 0)) := by
  cases h : obs.hasPanicLogger <;> cases outcome <;> simp [ServeHTTP, h]

/-- With `multiple = false`, every loop iteration past the 0th exits
immediately: the loop condition `multiple || i == 0` fails. -/
theorem slowLog_false_succ (i : Nat) (sched : List PollEvent) :
    slowLog false (i + 1) sched = [] := by
  cases sched with
  | nil => rfl
  | cons ev rest => simp [slowLog]

/-- The poller's output only depends on the schedule prefix before the
first cancellation event. -/
theorem slowLog_takeWhile (m : Bool) (sched : List PollEvent) :
    ∀ i : Nat, slowLog m i sched = slowLog m i (sched.takeWhile isTimer) := by
  induction sched with
  | nil => intro i; rfl
  | cons ev rest ih =>
    intro i
    cases ev with
    | done =>
      cases h : (m || i == 0) <;> simp [slowLog, List.takeWhile, isTimer, h]
    | timer snap =>
      cases h : (m || i == 0) <;>
        simp [slowLog, List.takeWhile, isTimer, h, ih (i + 1)]

/-! ## Claim theorems -/

/-- C4: for every sequence of `WriteHeader` calls, only the first call
forwards to the underlying stream and sets the recorded status to its
argument; later calls are no-ops changing nothing; with no call the
recorded status is 0.  (`specFirstHeader` is the spec-side "first
status-set call" function; `initLoggedRequest.status = 0`.) -/
theorem writeHeader_first_wins (ops : List HandlerOp) (lr : LoggedRequest)
    (c : Int) (h : lr.wroteHeader = true) :
    (runOps initLoggedRequest ops).1.status = (specFirstHeader ops).getD 0 ∧
    (runOps initLoggedRequest ops).2 = (specFirstHeader ops).toList ∧
    LoggedRequest.WriteHeader lr c = (lr, false) := by
  refine ⟨(runOps_header_fresh ops initLoggedRequest rfl).1,
    (runOps_header_fresh ops initLoggedRequest rfl).2, ?_⟩
  simp [LoggedRequest.WriteHeader, h]

/-- Witness for C4 at a concrete trace (header 7 first, then a write
and a second header 9) and a concrete already-written state. -/
theorem writeHeader_first_wins_witness :
    ({ status := 7, wroteHeader := true, bytesWritten := 0 } :
        LoggedRequest).wroteHeader = true ∧
    ((runOps initLoggedRequest
        [HandlerOp.writeHeader 7,
          HandlerOp.write 3 { written := 3, err := none },
          HandlerOp.writeHeader 9]).1.status =
      (specFirstHeader
        [HandlerOp.writeHeader 7,
          HandlerOp.write 3 { written := 3, err := none },
          HandlerOp.writeHeader 9]).getD 0 ∧
    (runOps initLoggedRequest
        [HandlerOp.writeHeader 7,
          HandlerOp.write 3 { written := 3, err := none },
          HandlerOp.writeHeader 9]).2 =
      (specFirstHeader
        [HandlerOp.writeHeader 7,
          HandlerOp.write 3 { written := 3, err := none },
          HandlerOp.writeHeader 9]).toList ∧
    LoggedRequest.WriteHeader
        { status := 7, wroteHeader := true, bytesWritten := 0 } 9 =
      ({ status := 7, wroteHeader := true, bytesWritten := 0 }, false)) :=
  ⟨by decide,
    writeHeader_first_wins
      [HandlerOp.writeHeader 7,
        HandlerOp.write 3 { written := 3, err := none },
        HandlerOp.writeHeader 9]
      { status := 7, wroteHeader := true, bytesWritten := 0 } 9 (by decide)⟩

/-- C3 (amended): each `Write` call increases the byte counter by
exactly the count the underlying stream reported for that call; for
every trace — short writes included — the final counter and the
terminal entry's `BytesWritten` equal the sum of the
underlying-reported counts over the handler's writes; and that sum
equals the sum of the `len(bytes)` whenever every write fully succeeded
at the underlying stream. -/
theorem write_adds_underlying_count (lr : LoggedRequest) (n : Nat)
    (u : WriteResult) (obs : Observer) (ops : List HandlerOp)
    (outcome : Option α) :
    (LoggedRequest.Write lr n u).1.bytesWritten =
      lr.bytesWritten + u.written ∧
    (runOps initLoggedRequest ops).1.bytesWritten = sumWritten ops ∧
    (∀ e ∈ (ServeHTTP obs ops outcome).emissions,
        (emissionData e).BytesWritten = sumWritten ops) ∧
    (allFullWrites ops = true → sumWritten ops = sumDataLen ops) := by
  refine ⟨rfl, ?_, ?_, fun h => sumWritten_eq_sumDataLen ops h⟩
  · simpa [initLoggedRequest] using runOps_bytesWritten ops initLoggedRequest
  · intro e he
    have hb := runOps_bytesWritten ops initLoggedRequest
    cases hp : obs.hasPanicLogger <;> cases outcome <;>
      simp_all [ServeHTTP, emissionData, LoggedRequest.currentData,
        initLoggedRequest]

/-- Witness for C3 at a concrete fully-successful trace: two writes of
8 bytes each, no panic logger, normal return. -/
theorem write_adds_underlying_count_witness :
    allFullWrites
      [HandlerOp.write 8 { written := 8, err := none },
        HandlerOp.write 8 { written := 8, err := none }] = true ∧
    ((LoggedRequest.Write initLoggedRequest 8
        { written := 8, err := none }).1.bytesWritten =
      initLoggedRequest.bytesWritten + 8 ∧
    (runOps initLoggedRequest
        [HandlerOp.write 8 { written := 8, err := none },
          HandlerOp.write 8 { written := 8, err := none }]).1.bytesWritten =
      sumWritten
        [HandlerOp.write 8 { written := 8, err := none },
          HandlerOp.write 8 { written := 8, err := none }] ∧
    (∀ e ∈ (ServeHTTP
        { hasPanicLogger := false, hasSlowLogger := false,
          cutoff := 0, multipleLogs := false }
        [HandlerOp.write 8 { written := 8, err := none },
          HandlerOp.write 8 { written := 8, err := none }]
        (none : Option Nat)).emissions,
        (emissionData e).BytesWritten =
          sumWritten
            [HandlerOp.write 8 { written := 8, err := none },
              HandlerOp.write 8 { written := 8, err := none }]) ∧
    sumWritten
        [HandlerOp.write 8 { written := 8, err := none },
          HandlerOp.write 8 { written := 8, err := none }] =
      sumDataLen
        [HandlerOp.write 8 { written := 8, err := none },
          HandlerOp.write 8 { written := 8, err := none }]) := by
  have h := write_adds_underlying_count initLoggedRequest 8
    { written := 8, err := none }
    { hasPanicLogger := false, hasSlowLogger := false,
      cutoff := 0, multipleLogs := false }
    [HandlerOp.write 8 { written := 8, err := none },
      HandlerOp.write 8 { written := 8, err := none }]
    (none : Option Nat)
  exact ⟨by decide, h.1, h.2.1, h.2.2.1, h.2.2.2 (by decide)⟩

/-- Counterexample to C3 as stated: when the underlying stream reports
a short write (here 0 bytes of a 5-byte buffer, with an error — legal
under the `io.Writer` contract), the counter does not increase by
`len(bytes)`: it increases by the reported count. -/
theorem write_adds_underlying_count_counterexample :
    (LoggedRequest.Write initLoggedRequest 5
        { written := 0, err := some "stream error" }).1.bytesWritten ≠
      initLoggedRequest.bytesWritten + 5 := by decide

/-- C9: the byte counter never decreases: `Write` adds a non-negative
count, `WriteHeader` leaves it unchanged, `currentData` is a pure
snapshot that does not mutate the state, and any operation sequence
leaves the counter at least its previous value. -/
theorem bytesWritten_monotone (lr : LoggedRequest) (n : Nat)
    (u : WriteResult) (c : Int) (ops : List HandlerOp) :
    lr.bytesWritten ≤ (LoggedRequest.Write lr n u).1.bytesWritten ∧
    lr.bytesWritten ≤ (LoggedRequest.WriteHeader lr c).1.bytesWritten ∧
    LoggedRequest.currentData lr = (lr.status, lr.bytesWritten) ∧
    lr.bytesWritten ≤ (runOps lr ops).1.bytesWritten := by
  refine ⟨Nat.le_add_right _ _, ?_, rfl, ?_⟩
  · by_cases h : lr.wroteHeader <;> simp [LoggedRequest.WriteHeader, h]
  · rw [runOps_bytesWritten ops lr]; exact Nat.le_add_right _ _

/-- C10: the `(count, error)` pair the interceptor's `Write` returns to
the handler is exactly the pair the underlying stream's `Write`
returned, unchanged by the bookkeeping. -/
theorem write_returns_underlying_pair (lr : LoggedRequest) (n : Nat)
    (u : WriteResult) :
    (LoggedRequest.Write lr n u).2.written = u.written ∧
    (LoggedRequest.Write lr n u).2.err = u.err :=
  ⟨rfl, rfl⟩

/-- C7: with `repeat = false` the poller emits at most once, only
iteration index 0 can emit, and every iteration past the 0th terminates
the loop without emitting, whatever the schedule. -/
theorem slowLog_single_when_not_multiple (sched : List PollEvent)
    (i : Nat) :
    (slowLog false 0 sched).length ≤ 1 ∧
    (∀ p ∈ slowLog false 0 sched, p.2 = 0) ∧
    slowLog false (i + 1) sched = [] := by
  refine ⟨?_, ?_, slowLog_false_succ i sched⟩
  · cases sched with
    | nil => simp [slowLog]
    | cons ev rest =>
      cases ev with
      | done => simp [slowLog]
      | timer snap => simp [slowLog, slowLog_false_succ 0 rest]
  · intro p hp
    cases sched with
    | nil => simp [slowLog] at hp
    | cons ev rest =>
      cases ev with
      | done => simp [slowLog] at hp
      | timer snap =>
        simp [slowLog, slowLog_false_succ 0 rest] at hp
        simp [hp]

/-- C8: a loop iteration that observes the cancellation signal
terminates immediately with no emission, and the poller's emissions are
exactly those of the schedule prefix before the first cancellation — it
never emits after observing cancellation. -/
theorem slowLog_stops_on_done (m : Bool) (i : Nat)
    (sched rest : List PollEvent) :
    slowLog m i (PollEvent.done :: rest) = [] ∧
    slowLog m i sched = slowLog m i (sched.takeWhile isTimer) := by
  refine ⟨?_, slowLog_takeWhile m sched i⟩
  cases h : (m || i == 0) <;> simp [slowLog, h]

/-- C1: every dispatch emits exactly one terminal event — one
`LogRequest` or one `LogPanic`, never both and never neither — over the
whole per-request emission trace, slow emissions included. -/
theorem serveHTTP_one_terminal (obs : Observer) (ops : List HandlerOp)
    (outcome : Option α) (sched : List PollEvent) :
    (requestTrace obs ops outcome sched).countP isTerminal = 1 ∧
    (ServeHTTP obs ops outcome).emissions.countP isLogRequest +
      (ServeHTTP obs ops outcome).emissions.countP isLogPanic = 1 := by
  have hslow : ∀ l : List (LogData × Nat),
      ((l.map fun q => Emission.logSlow q.1 q.2).countP
        (isTerminal (α := α))) = 0 :=
    fun l => countP_logSlow_map l _ (fun _ _ => rfl)
  constructor
  · have hz := countP_slowBlock (α := α)
      ((ServeHTTP obs ops outcome).pollerStarted)
      (slowLog obs.multipleLogs 0 sched) isTerminal (fun _ _ => rfl)
    simp only [requestTrace, List.countP_append, hz, Nat.zero_add]
    cases hp : obs.hasPanicLogger <;> cases outcome <;>
      simp [ServeHTTP, hp, List.countP_cons, isTerminal]
  · cases hp : obs.hasPanicLogger <;> cases outcome <;>
      simp [ServeHTTP, hp, List.countP_cons, isLogRequest, isLogPanic]

/-- C2 (amended): when the handler panics and the observer lacks the
failure-logging capability, the panic propagates to the dispatcher's
caller unmodified and no failure emission occurs — but the deferred
completion block still runs and makes its one normal `LogRequest`
emission (and slow emissions are governed independently by the
slow-logging configuration). -/
theorem serveHTTP_panic_no_logger (obs : Observer) (ops : List HandlerOp)
    (v : α) (sched : List PollEvent) (h : obs.hasPanicLogger = false) :
    (ServeHTTP obs ops (some v)).propagated = some v ∧
    (requestTrace obs ops (some v) sched).countP isLogPanic = 0 ∧
    (requestTrace obs ops (some v) sched).countP isLogRequest = 1 := by
  have hpan : ∀ l : List (LogData × Nat),
      ((l.map fun q => Emission.logSlow q.1 q.2).countP
        (isLogPanic (α := α))) = 0 :=
    fun l => countP_logSlow_map l _ (fun _ _ => rfl)
  have hreq : ∀ l : List (LogData × Nat),
      ((l.map fun q => Emission.logSlow q.1 q.2).countP
        (isLogRequest (α := α))) = 0 :=
    fun l => countP_logSlow_map l _ (fun _ _ => rfl)
  refine ⟨by simp [ServeHTTP, h], ?_, ?_⟩ <;>
    · simp only [requestTrace, List.countP_append]
      cases hps : (ServeHTTP obs ops (some v)).pollerStarted <;>
        simp_all [ServeHTTP, List.countP_cons, isLogPanic, isLogRequest,
          hpan, hreq]

/-- Witness for C2 (amended) at a concrete input: no capabilities at
all, empty handler trace, panic value 42. -/
theorem serveHTTP_panic_no_logger_witness :
    ({ hasPanicLogger := false, hasSlowLogger := false, cutoff := 0,
        multipleLogs := false } : Observer).hasPanicLogger = false ∧
    ((ServeHTTP
        { hasPanicLogger := false, hasSlowLogger := false, cutoff := 0,
          multipleLogs := false } ([] : List HandlerOp)
        (some (42 : Nat))).propagated = some 42 ∧
    (requestTrace
        { hasPanicLogger := false, hasSlowLogger := false, cutoff := 0,
          multipleLogs := false } ([] : List HandlerOp) (some (42 : Nat))
        ([] : List PollEvent)).countP isLogPanic = 0 ∧
    (requestTrace
        { hasPanicLogger := false, hasSlowLogger := false, cutoff := 0,
          multipleLogs := false } ([] : List HandlerOp) (some (42 : Nat))
        ([] : List PollEvent)).countP isLogRequest = 1) :=
  ⟨rfl,
    serveHTTP_panic_no_logger
      { hasPanicLogger := false, hasSlowLogger := false, cutoff := 0,
        multipleLogs := false } ([] : List HandlerOp) (42 : Nat)
      ([] : List PollEvent) rfl⟩

/-- Counterexample to C2 as stated: with no failure-logging capability
and a panicking handler, the panic does propagate unmodified, but the
claim's "zero log emissions of any kind" is false — the deferred block
still emits the normal `LogRequest`, and with a slow logger configured
(cutoff 5, repeat) a slow emission lands too: the trace is
`[logSlow, logRequest]`, not `[]`. -/
theorem serveHTTP_panic_no_logger_counterexample :
    (ServeHTTP
        { hasPanicLogger := false, hasSlowLogger := true, cutoff := 5,
          multipleLogs := true } ([] : List HandlerOp)
        (some (42 : Nat))).propagated = some 42 ∧
    requestTrace
        { hasPanicLogger := false, hasSlowLogger := true, cutoff := 5,
          multipleLogs := true } ([] : List HandlerOp) (some (42 : Nat))
        [PollEvent.timer (0, 0)] =
      [Emission.logSlow { Status := 0, BytesWritten := 0 } 0,
        Emission.logRequest { Status := 0, BytesWritten := 0 }] ∧
    requestTrace
        { hasPanicLogger := false, hasSlowLogger := true, cutoff := 5,
          multipleLogs := true } ([] : List HandlerOp) (some (42 : Nat))
        [PollEvent.timer (0, 0)] ≠ ([] : List (Emission Nat)) := by
  refine ⟨rfl, rfl, ?_⟩
  decide

/-- C5: when the handler panics and the observer implements the
failure-logging capability, the dispatcher recovers the panic, emits
exactly one failure event carrying the panic value and zero normal
events, and nothing propagates to the caller. -/
theorem serveHTTP_panic_logger_recovers (obs : Observer)
    (ops : List HandlerOp) (v : α) (h : obs.hasPanicLogger = true) :
    (ServeHTTP obs ops (some v)).propagated = none ∧
    (ServeHTTP obs ops (some v)).emissions.countP isLogPanic = 1 ∧
    (ServeHTTP obs ops (some v)).emissions.countP isLogRequest = 0 ∧
    ∀ e ∈ (ServeHTTP obs ops (some v)).emissions,
      e = Emission.logPanic (emissionData e) v := by
  refine ⟨by simp [ServeHTTP, h], ?_, ?_, ?_⟩ <;>
    simp [ServeHTTP, h, List.countP_cons, isLogPanic, isLogRequest,
      emissionData]

/-- Witness for C5 at a concrete input: panic-logging observer, a
16-byte write then panic "boo!" (the test's Scenario B shape). -/
theorem serveHTTP_panic_logger_recovers_witness :
    ({ hasPanicLogger := true, hasSlowLogger := false, cutoff := 0,
        multipleLogs := false } : Observer).hasPanicLogger = true ∧
    ((ServeHTTP
        { hasPanicLogger := true, hasSlowLogger := false, cutoff := 0,
          multipleLogs := false }
        [HandlerOp.writeHeader 999,
          HandlerOp.write 16 { written := 16, err := none }]
        (some (42 : Nat))).propagated = none ∧
    (ServeHTTP
        { hasPanicLogger := true, hasSlowLogger := false, cutoff := 0,
          multipleLogs := false }
        [HandlerOp.writeHeader 999,
          HandlerOp.write 16 { written := 16, err := none }]
        (some (42 : Nat))).emissions.countP isLogPanic = 1 ∧
    (ServeHTTP
        { hasPanicLogger := true, hasSlowLogger := false, cutoff := 0,
          multipleLogs := false }
        [HandlerOp.writeHeader 999,
          HandlerOp.write 16 { written := 16, err := none }]
        (some (42 : Nat))).emissions.countP isLogRequest = 0 ∧
    ∀ e ∈ (ServeHTTP
        { hasPanicLogger := true, hasSlowLogger := false, cutoff := 0,
          multipleLogs := false }
        [HandlerOp.writeHeader 999,
          HandlerOp.write 16 { written := 16, err := none }]
        (some (42 : Nat))).emissions,
      e = Emission.logPanic (emissionData e) 42) :=
  ⟨rfl,
    serveHTTP_panic_logger_recovers
      { hasPanicLogger := true, hasSlowLogger := false, cutoff := 0,
        multipleLogs := false }
      [HandlerOp.writeHeader 999,
        HandlerOp.write 16 { written := 16, err := none }]
      (42 : Nat) rfl⟩

/-- C6: if the observer lacks the slow-logging capability, or its
cutoff for the request is not positive, the poller goroutine is never
started and zero slow emissions occur for the request. -/
theorem poller_not_started (obs : Observer) (ops : List HandlerOp)
    (outcome : Option α) (sched : List PollEvent)
    (h : obs.hasSlowLogger = false ∨ obs.cutoff ≤ 0) :
    (ServeHTTP obs ops outcome).pollerStarted = false ∧
    (requestTrace obs ops outcome sched).countP isLogSlow = 0 := by
  have hps : (ServeHTTP obs ops outcome).pollerStarted = false := by
    rw [ServeHTTP_pollerStarted]
    rcases h with h | h
    · simp [h]
    · simp [show ¬ (0 : Int) < obs.cutoff by omega]
  refine ⟨hps, ?_⟩
  simp only [requestTrace, hps, if_neg Bool.false_ne_true,
    List.nil_append]
  cases hp : obs.hasPanicLogger <;> cases outcome <;>
    simp [ServeHTTP, hp, List.countP_cons, isLogSlow]

/-- Witness for C6 at a concrete input: slow-logging capability present
but cutoff 0, one write, normal return, one pending timer event. -/
theorem poller_not_started_witness :
    (({ hasPanicLogger := false, hasSlowLogger := true, cutoff := 0,
        multipleLogs := true } : Observer).hasSlowLogger = false ∨
      ({ hasPanicLogger := false, hasSlowLogger := true, cutoff := 0,
          multipleLogs := true } : Observer).cutoff ≤ 0) ∧
    ((ServeHTTP
        { hasPanicLogger := false, hasSlowLogger := true, cutoff := 0,
          multipleLogs := true }
        [HandlerOp.write 8 { written := 8, err := none }]
        (none : Option Nat)).pollerStarted = false ∧
    (requestTrace
        { hasPanicLogger := false, hasSlowLogger := true, cutoff := 0,
          multipleLogs := true }
        [HandlerOp.write 8 { written := 8, err := none }]
        (none : Option Nat)
        [PollEvent.timer (0, 8)]).countP isLogSlow = 0) :=
  ⟨Or.inr (by decide),
    poller_not_started
      { hasPanicLogger := false, hasSlowLogger := true, cutoff := 0,
        multipleLogs := true }
      [HandlerOp.write 8 { written := 8, err := none }]
      (none : Option Nat) [PollEvent.timer (0, 8)]
      (Or.inr (by decide))⟩

end Middlelogger
